import Mathlib

/-!
Verification development for the semantic-docstrings example corpus.

The embedded code comes from three Python source files:
  * `examples/module_example.py` — `process_message`, the payload validator;
  * `examples/class_example.py`  — `IdentificationAgent` with `identify`;
  * `examples/function_example.py` — `calculate_discount` over `Decimal`.

Python strings are modelled as Lean `String`; a Python `dict` payload is
modelled as an association list with first-match lookup (dict keys are
unique, so first-match lookup agrees with dict lookup); Python `Decimal`
is modelled as exact rational arithmetic `ℚ`; a raised exception is the
`Except.error` branch carrying the exception message.
-/

/-- A payload: the untrusted key/value mapping received from outside.
Values are strings, matching the inbound request shape (string values). -/
def Payload : Type := List (String × String)

/-- `payload.get(k)` of a Python dict: the value under `k`, or `none`. -/
def Payload.get (p : Payload) (k : String) : Option String :=
  (p.find? (fun kv => kv.1 == k)).map (fun kv => kv.2)

/-- Embedding of `process_message` from `examples/module_example.py`:
`text = payload.get("text"); if not text: raise ValueError("Missing \x27text\x27")`,
then `return text, payload.get("chat_session_id"), payload.get("chat_user_id")`.
For an optional string, Python falsiness (`not text`) is absence or the
empty string. -/
def process_message (payload : Payload) :
    Except String (String × Option String × Option String) :=
  match payload.get "text" with
  | none => Except.error "Missing \x27text\x27"
  | some t =>
      if t = "" then Except.error "Missing \x27text\x27"
      else Except.ok (t, payload.get "chat_session_id", payload.get "chat_user_id")

/-- Model of Python `s.startswith(pre)`: `pre` is a character-prefix of `s`. -/
def str_startswith (s pre : String) : Bool :=
  pre.toList.isPrefixOf s.toList

/-- The mutable state of `IdentificationAgent` from `examples/class_example.py`. -/
structure IdentificationAgent where
  identified : Bool
  account_uuid : Option String
deriving DecidableEq

/-- Embedding of `IdentificationAgent.__init__`: `identified = False`,
`account_uuid = None`. -/
def IdentificationAgent.init : IdentificationAgent :=
  { identified := false, account_uuid := none }

/-- Embedding of `IdentificationAgent.identify`:
`if token and token.startswith("valid-"): self.identified = True;
self.account_uuid = "uuid-1234"` then `return self.identified`.
The Python method mutates `self`; here it returns the returned boolean
together with the post-call state. `token and ...` is truthiness of the
string (non-emptiness) conjoined with the prefix test. -/
def IdentificationAgent.identify (s : IdentificationAgent) (token : String) :
    Bool × IdentificationAgent :=
  if (!(token == "")) && str_startswith token "valid-" then
    let s' : IdentificationAgent :=
      { identified := true, account_uuid := some "uuid-1234" }
    (s'.identified, s')
  else
    (s.identified, s)

/-- A session run: a freshly supplied state followed by a finite sequence of
`identify` calls, keeping only the final state. -/
def IdentificationAgent.runIdentify (s : IdentificationAgent)
    (toks : List String) : IdentificationAgent :=
  toks.foldl (fun st t => (st.identify t).2) s

/-- Modelled from the spec: the Session State Store (not present under
`src/`; only its contract is given, in section 4.2 of the spec). States are
keyed by session id in an association list. -/
def SessionStore : Type := List (String × IdentificationAgent)

/-- Lookup of the stored state for a session id, `none` when unseen. -/
def SessionStore.lookup (store : SessionStore) (k : String) :
    Option IdentificationAgent :=
  (store.find? (fun kv => kv.1 == k)).map (fun kv => kv.2)

/-- Modelled from the spec: `get_or_create(session_id)` (section 4.2; the
store code is not under `src/`). A known id returns its stored state; an
unseen id creates and stores a fresh unidentified state; a `null` id
returns a fresh, non-persisted state. -/
def get_or_create (store : SessionStore) (sid : Option String) :
    IdentificationAgent × SessionStore :=
  match sid with
  | none => (IdentificationAgent.init, store)
  | some k =>
      match store.lookup k with
      | some st => (st, store)
      | none => (IdentificationAgent.init, (k, IdentificationAgent.init) :: store)

/-- Modelled from the spec: `mark_identified(session_id, account_uuid)`
(section 4.2; the store code is not under `src/`). Idempotently moves the
stored state to identified; a no-op on an already-identified state. -/
def mark_identified (store : SessionStore) (k : String) (u : String) :
    SessionStore :=
  store.map (fun kv =>
    if kv.1 = k then
      (kv.1, if kv.2.identified then kv.2
             else { identified := true, account_uuid := some u })
    else kv)

/-- Outcome of one orchestrated turn, per section 4.5 of the spec. -/
inductive Response where
  | identification_success : Response
  | identification_failure : Response
  | domain_reply : String → Response
deriving DecidableEq

/-- Modelled from the spec: the Orchestrator routing policy (section 4.5;
the orchestrator code is not under `src/`). Validation runs first and
short-circuits on failure before the store is read or any agent invoked;
otherwise the turn is routed on the session state, with the domain agent
supplied by the host as a function argument. -/
def orchestrate (domain_agent : String → String → String)
    (store : SessionStore) (payload : Payload) :
    Except String (Response × SessionStore) :=
  match process_message payload with
  | Except.error e => Except.error e
  | Except.ok (text, sid, _uid) =>
      let res := get_or_create store sid
      let st := res.1
      let store1 := res.2
      if st.identified then
        Except.ok
          (Response.domain_reply (domain_agent text (st.account_uuid.getD "")),
           store1)
      else
        let step := st.identify text
        if step.1 then
          match sid with
          | some k =>
              Except.ok (Response.identification_success,
                mark_identified store1 k (step.2.account_uuid.getD ""))
          | none => Except.ok (Response.identification_success, store1)
        else
          Except.ok (Response.identification_failure, store1)

/-- Embedding of `calculate_discount` from `examples/function_example.py`.
`Decimal` values are modelled as exact rationals: `Decimal("0.05") = 1/20`,
`Decimal("0.3") = 3/10`. `if amount < 0: raise ValueError("Negative amount")`;
`base = 0.05 + tier * 0.05`; `discount = amount * base`;
`cap = amount * 0.3`; `return min(discount, cap)`. -/
def calculate_discount (user_tier : Int) (amount : ℚ) : Except String ℚ :=
  if amount < 0 then Except.error "Negative amount"
  else
    let base : ℚ := 1 / 20 + (user_tier : ℚ) * (1 / 20)
    let discount : ℚ := amount * base
    let cap : ℚ := amount * (3 / 10)
    Except.ok (min discount cap)

/-! ### Helper lemmas -/

/-- `process_message` fails, with the exact source message, exactly on an
absent or empty `text` value. Shared helper. -/
theorem process_message_fails_on_missing (payload : Payload)
    (h : payload.get "text" = none ∨ payload.get "text" = some "") :
    process_message payload = Except.error "Missing \x27text\x27" := by
  unfold process_message
  rcases h with h | h
  · rw [h]
  · rw [h]
    simp

/-- On a present, non-empty `text`, `process_message` returns the triple of
`text` and the two `chat_`-keyed optional values. Shared helper. -/
theorem process_message_succeeds (payload : Payload) (t : String)
    (h1 : payload.get "text" = some t) (h2 : t ≠ "") :
    process_message payload
      = Except.ok (t, payload.get "chat_session_id", payload.get "chat_user_id") := by
  unfold process_message
  rw [h1]
  simp [h2]

/-- A predicate preserved by one `identify` step is preserved by a run. -/
theorem runIdentify_preserves (P : IdentificationAgent → Prop)
    (step : ∀ s t, P s → P (s.identify t).2) :
    ∀ toks s, P s → P (IdentificationAgent.runIdentify s toks) := by
  intro toks
  induction toks with
  | nil => intro s hs; exact hs
  | cons t ts ih =>
      intro s hs
      exact ih (s.identify t).2 (step s t hs)

/-- One `identify` step either leaves the state alone or sets it to the
identified state with uuid `"uuid-1234"`. -/
theorem identify_state_cases (s : IdentificationAgent) (t : String) :
    (s.identify t).2 = s ∨
    (s.identify t).2
      = { identified := true, account_uuid := some "uuid-1234" } := by
  unfold IdentificationAgent.identify
  by_cases hc : ((!(t == "")) && str_startswith t "valid-") = true
  · right; rw [if_pos hc]
  · left; rw [if_neg hc]

/-- `identify` returns the post-state `identified` flag. Shared helper. -/
theorem identify_fst_eq_snd_identified (s : IdentificationAgent) (t : String) :
    (s.identify t).1 = (s.identify t).2.identified := by
  unfold IdentificationAgent.identify
  by_cases hc : ((!(t == "")) && str_startswith t "valid-") = true
  · rw [if_pos hc]
  · rw [if_neg hc]

/-- In any state reachable from a fresh agent, being identified forces
`account_uuid = some "uuid-1234"` (the only uuid the stub ever writes). -/
theorem reachable_identified_uuid (toks : List String) :
    (IdentificationAgent.runIdentify IdentificationAgent.init toks).identified = true →
    (IdentificationAgent.runIdentify IdentificationAgent.init toks).account_uuid
      = some "uuid-1234" := by
  refine runIdentify_preserves
    (fun s => s.identified = true → s.account_uuid = some "uuid-1234")
    ?_ toks IdentificationAgent.init ?_
  · intro s t hs
    rcases identify_state_cases s t with h | h
    · rw [h]; exact hs
    · rw [h]; intro _; rfl
  · intro h
    exact absurd h (by simp [IdentificationAgent.init])

/-! ### Claims -/

/-- C1: `process_message` signals an error exactly when the `text` key is
absent or its value is the empty string, and on such payloads the
orchestrated turn short-circuits with that error: the resulting value is
the bare error — no session store appears in it and it does not depend on
the store or on the injected domain agent, so no session state is created
or mutated and no agent is invoked. -/
theorem validation_error_iff_missing_text (payload : Payload) :
    ((∃ e, process_message payload = Except.error e) ↔
      (payload.get "text" = none ∨ payload.get "text" = some "")) ∧
    (∀ domain_agent store,
      (payload.get "text" = none ∨ payload.get "text" = some "") →
      orchestrate domain_agent store payload
        = Except.error "Missing \x27text\x27") := by
  constructor
  · constructor
    · intro ⟨e, he⟩
      by_contra hcon
      push_neg at hcon
      obtain ⟨h1, h2⟩ := hcon
      match hx : payload.get "text" with
      | none => exact h1 hx
      | some t =>
          have ht : t ≠ "" := by
            intro h0
            exact h2 (by rw [hx, h0])
          rw [process_message_succeeds payload t hx ht] at he
          exact Except.noConfusion he
    · intro h
      exact ⟨_, process_message_fails_on_missing payload h⟩
  · intro domain_agent store h
    unfold orchestrate
    rw [process_message_fails_on_missing payload h]

/-- C1 witness: concrete scenario 3 — a payload with `session_id` but no
`text` key fails validation with no store access. -/
theorem validation_error_iff_missing_text_witness :
    orchestrate (fun t _ => t) [] [("session_id", "s2")]
      = Except.error "Missing \x27text\x27" :=
  (validation_error_iff_missing_text [("session_id", "s2")]).2
    (fun t _ => t) [] (Or.inl rfl)

/-- C2 counterexample: the code reads the key `chat_session_id`, not
`session_id`. On the payload `{"text": "hi", "session_id": "s1",
"user_id": "u1"}` the result carries `none` in the second and third
components, while the payload holds `"s1"` under `session_id`, so the
second component does not equal the value under `session_id`. -/
theorem process_message_ignores_session_id :
    process_message [("text", "hi"), ("session_id", "s1"), ("user_id", "u1")]
      = Except.ok ("hi", none, none) ∧
    Payload.get [("text", "hi"), ("session_id", "s1"), ("user_id", "u1")]
      "session_id" = some "s1" ∧
    (none : Option String) ≠ some "s1" := by
  refine ⟨rfl, rfl, ?_⟩
  simp

/-- C2 amended: for every payload with non-empty `text`, the second and
third components are the payload values under the keys `chat_session_id`
and `chat_user_id` (`none` when absent), passed through unchanged. -/
theorem process_message_passthrough (payload : Payload) (t : String)
    (h1 : payload.get "text" = some t) (h2 : t ≠ "") :
    process_message payload
      = Except.ok (t, payload.get "chat_session_id", payload.get "chat_user_id") :=
  process_message_succeeds payload t h1 h2

/-- C2 amended witness: a concrete payload with both `chat_` keys present. -/
theorem process_message_passthrough_witness :
    process_message
      [("text", "hi"), ("chat_session_id", "s1"), ("chat_user_id", "u1")]
      = Except.ok ("hi", some "s1", some "u1") := by
  have h := process_message_passthrough
    [("text", "hi"), ("chat_session_id", "s1"), ("chat_user_id", "u1")]
    "hi" rfl (by simp)
  simpa using h

/-- C3: after a fresh construction followed by any finite sequence of
`identify` calls, `account_uuid` is non-null iff `identified` is true. -/
theorem account_uuid_iff_identified (toks : List String) :
    (IdentificationAgent.runIdentify IdentificationAgent.init toks).account_uuid
        ≠ none ↔
    (IdentificationAgent.runIdentify IdentificationAgent.init toks).identified
        = true := by
  refine runIdentify_preserves
    (fun s => s.account_uuid ≠ none ↔ s.identified = true)
    ?_ toks IdentificationAgent.init ?_
  · intro s t hs
    rcases identify_state_cases s t with h | h
    · rw [h]; exact hs
    · rw [h]
      constructor
      · intro _; rfl
      · intro _; simp
  · constructor
    · intro h
      exact absurd rfl h
    · intro h
      exact absurd h (by simp [IdentificationAgent.init])

/-- C4: once `identified` is true it never reverts: any further finite
sequence of `identify` calls leaves `identified` true. -/
theorem identified_monotone (s : IdentificationAgent) (toks : List String)
    (h : s.identified = true) :
    (IdentificationAgent.runIdentify s toks).identified = true := by
  refine runIdentify_preserves (fun st => st.identified = true) ?_ toks s h
  intro s' t hs'
  rcases identify_state_cases s' t with hcase | hcase
  · rw [hcase]; exact hs'
  · rw [hcase]

/-- C4 witness: an identified state stays identified across further calls. -/
theorem identified_monotone_witness :
    (IdentificationAgent.runIdentify
      { identified := true, account_uuid := some "uuid-1234" }
      ["bad-token", ""]).identified = true :=
  identified_monotone
    { identified := true, account_uuid := some "uuid-1234" }
    ["bad-token", ""] rfl

/-- C5: on an unidentified agent, `identify` returns true exactly for the
tokens the stub provider accepts (non-empty with character prefix
`"valid-"`), and on success exposes the non-empty identifier
`"uuid-1234"`; concretely, `"valid-abc"` succeeds with that uuid,
`"bad-token"` fails leaving the fresh state unchanged, and a later
`"valid-xyz"` then succeeds. -/
theorem identify_on_unidentified (s : IdentificationAgent) (t : String)
    (h : s.identified = false) :
    ((s.identify t).1 = true ↔
      ((!(t == "")) && str_startswith t "valid-") = true) ∧
    ((s.identify t).1 = true →
      (s.identify t).2.account_uuid = some "uuid-1234" ∧
        "uuid-1234" ≠ "") ∧
    (IdentificationAgent.init.identify "valid-abc").1 = true ∧
    (IdentificationAgent.init.identify "valid-abc").2.account_uuid
      = some "uuid-1234" ∧
    (IdentificationAgent.init.identify "bad-token").1 = false ∧
    (IdentificationAgent.init.identify "bad-token").2
      = IdentificationAgent.init ∧
    ((IdentificationAgent.init.identify "bad-token").2.identify
      "valid-xyz").1 = true := by
  refine ⟨?_, ?_, by rfl, by rfl, by rfl, by rfl, by rfl⟩
  · unfold IdentificationAgent.identify
    by_cases hc : ((!(t == "")) && str_startswith t "valid-") = true
    · rw [if_pos hc]
      simp [hc]
    · rw [if_neg hc]
      simp [h, hc]
  · intro hret
    refine ⟨?_, by simp⟩
    unfold IdentificationAgent.identify at hret ⊢
    by_cases hc : ((!(t == "")) && str_startswith t "valid-") = true
    · rw [if_pos hc]
    · rw [if_neg hc] at hret
      rw [h] at hret
      exact absurd hret (by simp)

/-- C5 witness: instantiated at the fresh agent and the token
`"bad-token"`, yielding all the concrete scenario facts. -/
theorem identify_on_unidentified_witness :
    (IdentificationAgent.init.identify "bad-token").1 = false ∧
    (IdentificationAgent.init.identify "bad-token").2
      = IdentificationAgent.init :=
  ⟨(identify_on_unidentified IdentificationAgent.init "bad-token" rfl).2.2.2.2.1,
   (identify_on_unidentified IdentificationAgent.init "bad-token" rfl).2.2.2.2.2.1⟩

/-- C6: a freshly constructed agent state has `identified = false` and
`account_uuid = none`, and `get_or_create` on a previously-unseen session
id yields exactly that fresh state. -/
theorem fresh_state_unidentified :
    IdentificationAgent.init.identified = false ∧
    IdentificationAgent.init.account_uuid = none ∧
    (∀ (store : SessionStore) (k : String),
      store.lookup k = none →
      (get_or_create store (some k)).1 = IdentificationAgent.init ∧
      (get_or_create store (some k)).2.lookup k
        = some IdentificationAgent.init) ∧
    (∀ store, (get_or_create store none).1 = IdentificationAgent.init) := by
  refine ⟨rfl, rfl, ?_, fun store => rfl⟩
  intro store k h
  simp only [get_or_create, h]
  constructor
  · trivial
  · unfold SessionStore.lookup
    simp [List.find?]

/-- C6 witness: the empty store has never seen `"s1"`; creating it yields
the fresh unidentified state. -/
theorem fresh_state_unidentified_witness :
    (get_or_create [] (some "s1")).1 = IdentificationAgent.init ∧
    (get_or_create [] (some "s1")).2.lookup "s1"
      = some IdentificationAgent.init :=
  fresh_state_unidentified.2.2.1 [] "s1" rfl

/-- C7: on any reachable already-identified state, a further `identify`
call keeps `identified` true and leaves `account_uuid` unchanged; and for
every state and token, calling `identify` twice in a row with the same
token yields the same state as calling it once. -/
theorem identify_idempotent_when_identified (toks : List String) (t : String)
    (h : (IdentificationAgent.runIdentify IdentificationAgent.init toks).identified
      = true) :
    (((IdentificationAgent.runIdentify IdentificationAgent.init toks).identify
        t).2.identified = true) ∧
    (((IdentificationAgent.runIdentify IdentificationAgent.init toks).identify
        t).2.account_uuid
      = (IdentificationAgent.runIdentify IdentificationAgent.init toks).account_uuid) ∧
    (∀ (s : IdentificationAgent) (u : String),
      ((s.identify u).2.identify u).2 = (s.identify u).2) := by
  have huuid := reachable_identified_uuid toks h
  set s := IdentificationAgent.runIdentify IdentificationAgent.init toks with hs
  refine ⟨?_, ?_, ?_⟩
  · rcases identify_state_cases s t with hcase | hcase
    · rw [hcase]; exact h
    · rw [hcase]
  · rcases identify_state_cases s t with hcase | hcase
    · rw [hcase]
    · rw [hcase, huuid]
  · intro s' u
    unfold IdentificationAgent.identify
    by_cases hc : ((!(u == "")) && str_startswith u "valid-") = true
    · simp only [if_pos hc]
    · simp only [if_neg hc]

/-- C7 witness: after a successful identification the next call with an
invalid token changes nothing. -/
theorem identify_idempotent_when_identified_witness :
    ((IdentificationAgent.runIdentify IdentificationAgent.init
        ["valid-a"]).identify "bad-token").2.identified = true ∧
    ((IdentificationAgent.runIdentify IdentificationAgent.init
        ["valid-a"]).identify "bad-token").2.account_uuid
      = (IdentificationAgent.runIdentify IdentificationAgent.init
          ["valid-a"]).account_uuid :=
  ⟨(identify_idempotent_when_identified ["valid-a"] "bad-token" rfl).1,
   (identify_idempotent_when_identified ["valid-a"] "bad-token" rfl).2.1⟩

/-- C8 counterexample: on a payload with no `text` key the raised message
is `Missing \x27text\x27`, which is not the message the claim states. -/
theorem validation_message_differs :
    process_message [] = Except.error "Missing \x27text\x27" ∧
    "Missing \x27text\x27" ≠ "missing required field: text" := by
  refine ⟨rfl, ?_⟩
  simp

/-- C8 amended: for every payload whose `text` is absent or empty, the
error that `process_message` signals carries the message
`Missing \x27text\x27`. -/
theorem validation_message_exact (payload : Payload)
    (h : payload.get "text" = none ∨ payload.get "text" = some "") :
    process_message payload = Except.error "Missing \x27text\x27" :=
  process_message_fails_on_missing payload h

/-- C8 amended witness: the empty-string `text` value also fails with the
same message. -/
theorem validation_message_exact_witness :
    process_message [("text", "")] = Except.error "Missing \x27text\x27" :=
  validation_message_exact [("text", "")] (Or.inr rfl)

/-- C9: `identify` returns the post-call `identified` flag, not the
outcome of the current attempt; in particular an invalid token handed to
an already-identified (reachable) agent still returns true. -/
theorem identify_returns_state_flag :
    (∀ (s : IdentificationAgent) (t : String),
      (s.identify t).1 = (s.identify t).2.identified) ∧
    ((IdentificationAgent.runIdentify IdentificationAgent.init
        ["valid-a"]).identify "bad-token").1 = true := by
  exact ⟨identify_fst_eq_snd_identified, rfl⟩

/-- C10: `calculate_discount` fails exactly on negative amounts; on
non-negative amounts it returns `min (amount * (1/20 + tier/20))
(amount * (3/10))` in exact arithmetic, which never exceeds thirty percent
of the amount, and equals exactly `amount * (3/10)` for every tier at
least five. -/
theorem calculate_discount_spec (user_tier : Int) (amount : ℚ) :
    (amount < 0 → calculate_discount user_tier amount
      = Except.error "Negative amount") ∧
    (0 ≤ amount → calculate_discount user_tier amount
      = Except.ok (min (amount * (1 / 20 + (user_tier : ℚ) * (1 / 20)))
          (amount * (3 / 10)))) ∧
    (min (amount * (1 / 20 + (user_tier : ℚ) * (1 / 20)))
        (amount * (3 / 10)) ≤ amount * (3 / 10)) ∧
    (5 ≤ user_tier → 0 ≤ amount → calculate_discount user_tier amount
      = Except.ok (amount * (3 / 10))) := by
  refine ⟨?_, ?_, min_le_right _ _, ?_⟩
  · intro h
    unfold calculate_discount
    rw [if_pos h]
  · intro h
    unfold calculate_discount
    rw [if_neg (not_lt.mpr h)]
  · intro ht ha
    unfold calculate_discount
    rw [if_neg (not_lt.mpr ha)]
    have htq : (5 : ℚ) ≤ (user_tier : ℚ) := by exact_mod_cast ht
    have hbase : (3 : ℚ) / 10 ≤ 1 / 20 + (user_tier : ℚ) * (1 / 20) := by
      linarith
    have hcap : amount * (3 / 10)
        ≤ amount * (1 / 20 + (user_tier : ℚ) * (1 / 20)) :=
      mul_le_mul_of_nonneg_left hbase ha
    show Except.ok (min (amount * (1 / 20 + (user_tier : ℚ) * (1 / 20)))
        (amount * (3 / 10))) = Except.ok (amount * (3 / 10))
    rw [min_eq_right hcap]

/-- C10 witness: tier 5 on amount 10 yields exactly the thirty percent
cap, and a negative amount raises. -/
theorem calculate_discount_spec_witness :
    calculate_discount 5 10 = Except.ok 3 ∧
    calculate_discount 2 (-1) = Except.error "Negative amount" := by
  constructor
  · have h := (calculate_discount_spec 5 10).2.2.2 (by norm_num) (by norm_num)
    rw [h]
    norm_num
  · exact (calculate_discount_spec 2 (-1)).1 (by norm_num)
